import Mathlib

/-!
Verification of the 5907-scouting-api storage engine against its
specification.  The definitions below are a shallow embedding of the Rust
source: `src/datatypes.rs` (field/template/form data model and the
template-driven validator), `src/storage_manager.rs` (file-backed storage
operations and the transaction log) and `src/sync.rs` (peer-facing sync
handlers).  File stores are embedded as association lists from file name to
typed content, fresh UUIDs and timestamps are passed as explicit arguments,
and the sha256 digest is passed as an explicit function argument `dg`.
-/

deriving instance DecidableEq for Except

namespace Scouting

/-- `FieldDataType` from `src/datatypes.rs` (also `src/data/template.rs`):
the type tag of a template field descriptor. -/
inductive FieldDataType where
  | Title
  | CheckBox
  | Rating (min max : Int)
  | Number
  | ShortText
  | LongText
deriving DecidableEq, Repr

/-- `FieldData` from `src/datatypes.rs`: a tagged form field value. -/
inductive FieldData where
  | CheckBox (b : Bool)
  | Rating (n : Int)
  | Number (n : Int)
  | ShortText (s : String)
  | LongText (s : String)
deriving DecidableEq, Repr

/-- `FieldTemplate` from `src/datatypes.rs`. -/
structure FieldTemplate where
  data_type : FieldDataType
  name : String
deriving DecidableEq, Repr

/-- `FormTemplate` from `src/datatypes.rs`. -/
structure FormTemplate where
  fields : List FieldTemplate
  name : String
  year : Int
deriving DecidableEq, Repr

/-- Modelled from the spec: the `Form` payload used by
`src/storage_manager.rs` is not itself under `src/` (the `datatypes.rs` in
the tree is an older revision without the `timestamp`, `deleted` and
`template` members).  Spec section 3 gives
`{fields, scouter, team: i64, match_number: i64, event_key, id: opt-uuid}`;
`storage_manager.rs` additionally writes `timestamp` and `deleted` as
`Option` values and filters on a `template` column.  The `HashMap` of fields
is embedded as an association list. -/
structure Form where
  fields : List (String × FieldData)
  scouter : String
  team : Int
  match_number : Int
  event_key : String
  id : Option String
  timestamp : Option Int
  deleted : Option Bool
  template : String
deriving DecidableEq, Repr

/-- `Form::get_field` from `src/datatypes.rs`: lookup in the field map. -/
def Form.get_field (f : Form) (name : String) : Option FieldData :=
  (f.fields.find? (fun p => p.1 == name)).map Prod.snd

/-- `FieldTemplate::data_type_match` from `src/datatypes.rs` lines 48-58:
a `Rating` value matches any `Rating { .. }` descriptor regardless of the
bounds; every other tag matches only its own descriptor type. -/
def FieldTemplate.data_type_match (t : FieldTemplate) (data : FieldData) : Bool :=
  match data with
  | .CheckBox _ =>
    match t.data_type with
    | .CheckBox => true
    | _ => false
  | .Rating _ =>
    match t.data_type with
    | .Rating _ _ => true
    | _ => false
  | .Number _ =>
    match t.data_type with
    | .Number => true
    | _ => false
  | .ShortText _ =>
    match t.data_type with
    | .ShortText => true
    | _ => false
  | .LongText _ =>
    match t.data_type with
    | .LongText => true
    | _ => false

/-- `FormTemplate::validate_form` from `src/datatypes.rs` lines 29-44:
for every non-`Title` descriptor the form must contain a matching value;
the loop returns `false` at the first violation, else `true`. -/
def FormTemplate.validate_form (t : FormTemplate) (form : Form) : Bool :=
  t.fields.all fun x =>
    match x.data_type with
    | FieldDataType.Title => true
    | _ =>
      match form.get_field x.name with
      | none => false
      | some data => x.data_type_match data

/-- Concrete template used by evaluation witnesses. -/
def tEx : FormTemplate :=
  { fields := [⟨FieldDataType.Title, "header"⟩,
               ⟨FieldDataType.Rating 1 5, "speed"⟩,
               ⟨FieldDataType.CheckBox, "auto"⟩],
    name := "T1", year := 2024 }

/-- Concrete form used by evaluation witnesses; it follows `tEx` and also
carries an extra field no descriptor names. -/
def fEx : Form :=
  { fields := [("speed", FieldData.Rating 99), ("auto", FieldData.CheckBox true),
               ("extra", FieldData.LongText "ignored")],
    scouter := "s", team := 10, match_number := 1, event_key := "e",
    id := none, timestamp := none, deleted := none, template := "T1" }

/-- C1: the validator accepts a form against a template iff every non-Title
field descriptor has a value of matching tag under its name in the form
(first conjunct); a form field named by no descriptor never changes the
verdict (second conjunct); and a Rating value matches a Rating descriptor
regardless of the bounds (third conjunct). -/
theorem validate_form_correct (t : FormTemplate) (f : Form) :
    (t.validate_form f = true ↔
      ∀ x ∈ t.fields, x.data_type ≠ FieldDataType.Title →
        ∃ d, f.get_field x.name = some d ∧ x.data_type_match d = true)
    ∧ (∀ (n : String) (d : FieldData), (∀ x ∈ t.fields, x.name ≠ n) →
        t.validate_form { f with fields := (n, d) :: f.fields } = t.validate_form f)
    ∧ (∀ (lo hi v : Int) (nm : String),
        FieldTemplate.data_type_match ⟨FieldDataType.Rating lo hi, nm⟩
          (FieldData.Rating v) = true) := by
  refine ⟨?_, ?_, fun lo hi v nm => rfl⟩
  · rw [FormTemplate.validate_form, List.all_eq_true]
    constructor
    · intro h x hx hnt
      have hx' := h x hx
      cases hdt : x.data_type with
      | Title => exact absurd hdt hnt
      | _ =>
        rw [hdt] at hx'
        cases hg : f.get_field x.name with
        | none => rw [hg] at hx'; simp at hx'
        | some d =>
          rw [hg] at hx'
          exact ⟨d, rfl, hx'⟩
    · intro h x hx
      cases hdt : x.data_type with
      | Title => rfl
      | _ =>
        obtain ⟨d, hd, hm⟩ := h x hx (by rw [hdt]; intro hc; cases hc)
        rw [hd]
        exact hm
  · intro n d hn
    have key : ∀ x ∈ t.fields,
        Form.get_field { f with fields := (n, d) :: f.fields } x.name
          = f.get_field x.name := by
      intro x hx
      have hne : (n == x.name) = false :=
        beq_eq_false_iff_ne.mpr (fun hc => hn x hx hc.symm)
      simp only [Form.get_field, List.find?, hne]
    rw [Bool.eq_iff_iff, FormTemplate.validate_form, FormTemplate.validate_form,
        List.all_eq_true, List.all_eq_true]
    constructor
    · intro h x hx
      have hx' := h x hx
      rw [key x hx] at hx'
      exact hx'
    · intro h x hx
      rw [key x hx]
      exact h x hx

/-- Evaluation witness for C1: `validate_form_correct` applied at the
concrete template `tEx` and form `fEx`. -/
theorem validate_form_correct_witness :
    ∀ x ∈ tEx.fields, x.data_type ≠ FieldDataType.Title →
      ∃ d, fEx.get_field x.name = some d ∧ x.data_type_match d = true :=
  (validate_form_correct tEx fEx).1.mp (by decide)

/-- `Shift` from `src/datatypes.rs` (`station : u8`, `match_start`,
`match_end : u32` carry no arithmetic in the embedded code, so plain `Nat`
is used). -/
structure Shift where
  scouter : String
  station : Nat
  match_start : Nat
  match_end : Nat
deriving DecidableEq, Repr

/-- `Schedule` from `src/datatypes.rs`. -/
structure Schedule where
  event : String
  shifts : List Shift
deriving DecidableEq, Repr

/-- `Filter` from `src/datatypes.rs`. -/
structure Filter where
  match_number : Option Int
  team : Option Int
  event : Option String
  scouter : Option String
deriving DecidableEq, Repr

/-- Error outcomes of the embedded storage operations, covering the
`anyhow::Error` values raised by `src/storage_manager.rs`:
`notFound` is an I/O error on a missing source file (`fs::rename`,
`fs::read`), `alreadyExists` the `create_new` failure of
`write_non_create`, `validationFailed` the error string
"form does not follow template", `noForms` the "no forms" error,
`decode` a serde deserialization failure, `explode` and `logMiss` the two
error strings of `TransactionLog::get_after`. -/
inductive Err where
  | notFound
  | alreadyExists
  | validationFailed
  | noForms
  | decode
  | explode
  | logMiss
deriving DecidableEq, Repr

/-- `DataType` as used by `src/storage_manager.rs`
(`DataType::Form(template_name)`, `Template`, `Schedule`, `Bytes`).
Modelled from the spec: the enum itself is not under `src/`
(the `transactions.rs` in the tree is an older revision). -/
inductive DataType where
  | Template
  | Schedule
  | Form (template : String)
  | Bytes
deriving DecidableEq, Repr

/-- `Action` as used by `src/storage_manager.rs` (`Add`, `Edit`, `Delete`).
Modelled from the spec: the enum itself is not under `src/`. -/
inductive Action where
  | Add
  | Edit
  | Delete
deriving DecidableEq, Repr

/-- Modelled from the spec: the transaction record of section 3.
`src/storage_manager.rs` constructs
`InternalMessage::new(data_type, action, key)` where `key` is the blob file
name, and a fresh `id` is minted inside `new`; the struct itself is not
under `src/` (the `transactions.rs` in the tree is an older revision whose
`new` mints `id: Uuid` fresh, which `get_after` compares).  The fresh id is
passed explicitly and uuids are embedded as `Nat`. -/
structure InternalMessage where
  id : Nat
  data_type : DataType
  action : Action
  blob : String
deriving DecidableEq, Repr

/-- The on-disk state touched by the embedded `StorageManager` operations:
one association list of files per sub-directory (file contents are kept as
their typed payloads, since serde round-trips them), the set of per-template
form directories created by `template_dir`, and the transaction log as the
list of lines appended by `TransactionLog::log_transaction`. -/
structure Storage where
  templates : List (String × FormTemplate)
  schedules : List (String × Schedule)
  forms : List (String × Form)
  bytesFiles : List (String × List Nat)
  formDirs : List String
  log : List InternalMessage
deriving DecidableEq, Repr

/-- Reading a file from one of the per-directory stores. -/
def fileLookup {α : Type} (files : List (String × α)) (name : String) : Option α :=
  (files.find? (fun p => p.1 == name)).map Prod.snd

/-- `write_non_create` from `src/storage_manager.rs` lines 764-776: opens
with `create_new(true)`, so it fails with `AlreadyExists` when the path is
taken and never overwrites an existing file. -/
def write_non_create {α : Type} (files : List (String × α)) (name : String)
    (contents : α) : Except Err (List (String × α)) :=
  if (files.find? (fun p => p.1 == name)).isSome then .error .alreadyExists
  else .ok ((name, contents) :: files)

/-- `fs::rename` as used by `raw_edit` and `raw_delete`
(`src/storage_manager.rs` lines 74-123): fails with a not-found I/O error
when the source file is absent, otherwise moves the contents to the
destination name (overwriting any file already there). -/
def renameFile {α : Type} (files : List (String × α)) (src dst : String) :
    Except Err (List (String × α)) :=
  match fileLookup files src with
  | none => .error .notFound
  | some c =>
    .ok ((dst, c) :: files.filter (fun p => !(p.1 == src) && !(p.1 == dst)))

/-- `StorageManager::bytes_delete` from `src/storage_manager.rs` lines
630-640: renames `bytes/<name>.current` to `bytes/<name>.<uuid>` via
`raw_delete`, then logs `InternalMessage::new(DataType::Bytes, Action::Add,
old)` — the source really passes `Action::Add` on this delete path (line
638), unlike `schedules_delete` and `templates_delete` which pass
`Action::Delete`. -/
def bytes_delete (uuid : String) (msgId : Nat) (name : String) (st : Storage) :
    Except Err Unit × Storage :=
  let old := name ++ "." ++ uuid
  let cur := name ++ ".current"
  match renameFile st.bytesFiles cur old with
  | .error e => (.error e, st)
  | .ok files =>
    (.ok (), { st with
               bytesFiles := files
               log := st.log ++ [⟨msgId, DataType.Bytes, Action.Add, old⟩] })

/-- Big-endian `u64::to_be_bytes` of a length (`desired_key.len() as u64`). -/
def beBytes8 (n : Nat) : List Nat :=
  [n / 256 ^ 7 % 256, n / 256 ^ 6 % 256, n / 256 ^ 5 % 256, n / 256 ^ 4 % 256,
   n / 256 ^ 3 % 256, n / 256 ^ 2 % 256, n / 256 % 256, n % 256]

/-- `u64::from_be_bytes` over the first eight stored bytes. -/
def fromBe8 (bs : List Nat) : Nat :=
  bs.foldl (fun acc b => acc * 256 + b) 0

/-- `StorageManager::bytes_add` from `src/storage_manager.rs` lines 576-600:
writes `bytes/<name>.current` holding the 8-byte big-endian length of the
alt-key, the alt-key bytes, then the payload, and logs an `Add`
transaction.  Strings of bytes are embedded as `List Nat`. -/
def bytes_add (name : String) (desired_key data : List Nat) (msgId : Nat)
    (st : Storage) : Except Err Unit × Storage :=
  let fname := name ++ ".current"
  let blob := beBytes8 desired_key.length ++ desired_key ++ data
  match write_non_create st.bytesFiles fname blob with
  | .error e => (.error e, st)
  | .ok files =>
    (.ok (), { st with
               bytesFiles := files
               log := st.log ++ [⟨msgId, DataType.Bytes, Action.Add, fname⟩] })

/-- `StorageManager::bytes_get` from `src/storage_manager.rs` lines 662-673:
reads `bytes/<name>.current`, decodes the first eight bytes as a big-endian
length `len`, and returns the bytes from offset `len + 8` on. -/
def bytes_get (name : String) (st : Storage) : Except Err (List Nat) :=
  let fname := name ++ ".current"
  match fileLookup st.bytesFiles fname with
  | none => .error .notFound
  | some bytes =>
    let len := fromBe8 (bytes.take 8)
    .ok (bytes.drop (len + 8))

/-- `TransactionLog::get_after` from `src/storage_manager.rs` lines 722-741:
scan the log lines in order; at the first line whose `id` matches, return
the next line, or the error string "explode" when there is none; return the
error string "dfasdfjkh" (here `logMiss`) when no line matches. -/
def get_after (log : List InternalMessage) (id : Nat) : Except Err InternalMessage :=
  match log with
  | [] => .error .logMiss
  | m :: rest =>
    if m.id == id then
      match rest with
      | [] => .error .explode
      | next :: _ => .ok next
    else get_after rest id

/-- Concrete storage holding one live bytes blob under alt-key "k",
used by the C2 and C5 evaluation theorems. -/
def bytesSt0 : Storage :=
  { templates := [], schedules := [],
    forms := [], formDirs := [],
    bytesFiles := [("k.current", beBytes8 1 ++ [107] ++ [1, 2, 3])],
    log := [⟨0, DataType.Bytes, Action.Add, "k.current"⟩] }

/-- C2 failing-input evaluation: deleting the live bytes alt-key "k"
succeeds, but the transaction appended to the log carries `Action.Add`,
not `Action.Delete` as the claim requires (and, for contrast, deleting a
key that is not live fails with the not-found error). -/
theorem bytes_delete_logs_add_action :
    (bytes_delete "u1" 1 "k" bytesSt0).1 = .ok () ∧
    (bytes_delete "u1" 1 "k" bytesSt0).2.log.getLast? =
      some ⟨1, DataType.Bytes, Action.Add, "k.u1"⟩ ∧
    (∀ m ∈ (bytes_delete "u1" 1 "k" bytesSt0).2.log, m.action ≠ Action.Delete) ∧
    (bytes_delete "u2" 2 "missing" bytesSt0).1 = .error Err.notFound := by
  decide

/-- The empty storage state, used by several evaluation witnesses. -/
def stEmpty : Storage :=
  { templates := [], schedules := [], forms := [], bytesFiles := [],
    formDirs := [], log := [] }

/-- A concrete transaction used by the C3 counterexample. -/
def tMsg : InternalMessage := ⟨1, DataType.Bytes, Action.Add, "k.current"⟩

/-- C3 counterexample: when the given transaction is the last one in the
log, `get_after` does not return a `None`-like success — it fails with the
error whose source message is "explode". -/
theorem get_after_tail_is_error :
    get_after [tMsg] tMsg.id = .error Err.explode := by
  decide

/-- C3 amended: for a transaction `t` whose id does not occur earlier in
the log, `get_after` returns the transaction on the line immediately
following `t`'s line, and returns an error — not `None` — when `t`'s line
is the last one. -/
theorem get_after_next_in_log (pre : List InternalMessage) (t next : InternalMessage)
    (rest : List InternalMessage) (h : ∀ m ∈ pre, m.id ≠ t.id) :
    get_after (pre ++ t :: next :: rest) t.id = .ok next ∧
    get_after (pre ++ [t]) t.id = .error Err.explode := by
  induction pre with
  | nil => exact ⟨by simp [get_after], by simp [get_after]⟩
  | cons m ms ih =>
    have hm : (m.id == t.id) = false :=
      beq_eq_false_iff_ne.mpr (h m (List.mem_cons_self m ms))
    have hih := ih (fun x hx => h x (List.mem_cons_of_mem m hx))
    refine ⟨?_, ?_⟩
    · simpa only [List.cons_append, get_after, hm, Bool.false_eq_true,
        if_false] using hih.1
    · simpa only [List.cons_append, get_after, hm, Bool.false_eq_true,
        if_false] using hih.2

/-- Evaluation witness for C3's amended theorem at a concrete log. -/
theorem get_after_next_in_log_witness :
    get_after ([⟨0, DataType.Template, Action.Add, "a"⟩] ++
        tMsg :: ⟨2, DataType.Bytes, Action.Edit, "b"⟩ :: []) tMsg.id
      = .ok ⟨2, DataType.Bytes, Action.Edit, "b"⟩ ∧
    get_after ([⟨0, DataType.Template, Action.Add, "a"⟩] ++ [tMsg]) tMsg.id
      = .error Err.explode :=
  get_after_next_in_log [⟨0, DataType.Template, Action.Add, "a"⟩] tMsg
    ⟨2, DataType.Bytes, Action.Edit, "b"⟩ [] (by decide)

/-- Decoding the eight stored big-endian digits recovers the length written
by `bytes_add` (reduced modulo `2 ^ 64`, as `to_be_bytes` of a `u64` does). -/
theorem fromBe8_beBytes8 (n : Nat) : fromBe8 (beBytes8 n) = n % 2 ^ 64 := by
  simp only [fromBe8, beBytes8, List.foldl]
  omega

/-- C5: a successful `bytes_add name k d` stores, at `<name>.current` in the
bytes directory, the 8-byte big-endian encoding of `k`'s length followed by
`k`'s bytes followed by `d`, and a subsequent `bytes_get name` returns
exactly `d`. -/
theorem bytes_roundtrip (name : String) (k d : List Nat) (msgId : Nat) (st : Storage)
    (hlen : k.length < 2 ^ 64)
    (hfree : fileLookup st.bytesFiles (name ++ ".current") = none) :
    (bytes_add name k d msgId st).1 = .ok () ∧
    fileLookup (bytes_add name k d msgId st).2.bytesFiles (name ++ ".current")
      = some (beBytes8 k.length ++ k ++ d) ∧
    bytes_get name (bytes_add name k d msgId st).2 = .ok d := by
  have hfind : st.bytesFiles.find? (fun p => p.1 == name ++ ".current") = none := by
    have := hfree
    rw [fileLookup, Option.map_eq_none'] at this
    exact this
  have hwrite : write_non_create st.bytesFiles (name ++ ".current")
      (beBytes8 k.length ++ k ++ d)
      = .ok ((name ++ ".current", beBytes8 k.length ++ k ++ d) :: st.bytesFiles) := by
    rw [write_non_create, hfind]
    rfl
  have hadd : bytes_add name k d msgId st
      = (.ok (), { st with
          bytesFiles := (name ++ ".current", beBytes8 k.length ++ k ++ d) :: st.bytesFiles
          log := st.log ++ [⟨msgId, DataType.Bytes, Action.Add, name ++ ".current"⟩] }) := by
    rw [bytes_add]
    rw [hwrite]
  have hlook : fileLookup
      ((name ++ ".current", beBytes8 k.length ++ k ++ d) :: st.bytesFiles)
      (name ++ ".current") = some (beBytes8 k.length ++ k ++ d) := by
    rw [fileLookup, List.find?]
    simp
  refine ⟨by rw [hadd], by rw [hadd]; exact hlook, ?_⟩
  rw [hadd, bytes_get]
  simp only [hlook]
  have htake : (beBytes8 k.length ++ k ++ d).take 8 = beBytes8 k.length := by
    rw [List.append_assoc]
    exact List.take_left' rfl
  have hlenmod : fromBe8 (beBytes8 k.length) = k.length := by
    rw [fromBe8_beBytes8]
    exact Nat.mod_eq_of_lt hlen
  have hdrop : (beBytes8 k.length ++ k ++ d).drop (k.length + 8) = d := by
    apply List.drop_left'
    rw [List.length_append, show (beBytes8 k.length).length = 8 from rfl]
    omega
  rw [htake, hlenmod, hdrop]

/-- Evaluation witness for C5: `bytes_roundtrip` applied at the alt-key
byte `107`, payload `[9, 8]` and the empty storage. -/
theorem bytes_roundtrip_witness :
    bytes_get "b" (bytes_add "b" [107] [9, 8] 5 stEmpty).2 = .ok [9, 8] :=
  (bytes_roundtrip "b" [107] [9, 8] 5 stEmpty (by norm_num)
    (by decide)).2.2

/-- `SyncManager` from `src/sync.rs` lines 72-77; `ChildID` (a wrapped
`Uuid`) is embedded as `Nat`. -/
structure SyncManager where
  approved_children : List Nat
  parents : List String
  id : Nat
deriving DecidableEq, Repr

/-- `SyncManager::valid_child_id` from `src/sync.rs` lines 79-83. -/
def SyncManager.valid_child_id (m : SyncManager) (child : Nat) : Bool :=
  m.approved_children.contains child

/-- `SyncResponse` from `src/sync.rs` lines 60-67. -/
inductive SyncResponse where
  | OK (msg : InternalMessage)
  | File (bytes : List Nat)
  | Diff (have_ need : List String)
  | UnapprovedChild
  | NotFound
  | Internal
deriving DecidableEq, Repr

/-- The `diff` handler from `src/sync.rs` lines 17-34: refuse with
`UnapprovedChild` unless the requester's child id is approved; otherwise
answer with the two set differences of the storage glob listing against the
peer's glob listing (an empty peer listing short-circuits to the full local
listing). -/
def diff (self_glob : List String) (mgr : SyncManager) (child : Nat)
    (glob : List String) : SyncResponse :=
  if !(mgr.valid_child_id child) then .UnapprovedChild
  else if glob.isEmpty then .Diff self_glob []
  else .Diff (self_glob.filter (fun s => !(glob.contains s)))
             (glob.filter (fun s => !(self_glob.contains s)))

/-- The `get_file` handler from `src/sync.rs` lines 36-45: it reads the
requested file and returns its bytes (or `NotFound`); the handler extracts
no `ChildID` and performs no `valid_child_id` check. -/
def get_file (path : String) (files : List (String × List Nat)) : SyncResponse :=
  match fileLookup files path with
  | some f => .File f
  | none => .NotFound

/-- Concrete sync state for the C4 evaluation: the only approved child id
is 1, and the file "data/x" exists with contents `[104, 105]`. -/
def mgr0 : SyncManager := { approved_children := [1], parents := [], id := 0 }

/-- C4 failing-input evaluation: the requester with child id 99 is not
approved, and `diff` duly refuses it — but the `get_file` handler serves
the file's bytes to any requester, approved or not: it takes no child id at
all, so its response cannot depend on one. -/
theorem get_file_serves_unapproved_requesters :
    mgr0.valid_child_id 99 = false ∧
    diff ["data/x"] mgr0 99 [] = .UnapprovedChild ∧
    get_file "data/x" [("data/x", [104, 105])] = .File [104, 105] := by
  decide

/-- `StorageManager::templates_get` from `src/storage_manager.rs` lines
528-535: read `templates/<digest(name)>.current` and deserialize it; a
missing file surfaces as the not-found I/O error.  The sha256 digest is the
explicit argument `dg`. -/
def templates_get (dg : String → String) (name : String) (st : Storage) :
    Except Err FormTemplate :=
  match fileLookup st.templates (dg name ++ ".current") with
  | none => .error .notFound
  | some t => .ok t

/-- `StorageManager::forms_add` from `src/storage_manager.rs` lines
134-165: mint a fresh uuid `pre`, stamp it (with the current timestamp and
`deleted = false`) into the form, fetch the template, validate, write the
form at `forms/<digest(pre)>.<digest(fresh
uuid)>`, log an `Add` transaction, and return `pre`.  The two fresh uuids
and the clock reading are explicit arguments. -/
def forms_add (dg : String → String) (template : String) (form : Form)
    (pre uuid2 : String) (msgId : Nat) (ts : Int) (st : Storage) :
    Except Err String × Storage :=
  let form' := { form with id := some pre, timestamp := some ts, deleted := some false }
  let digested := dg pre ++ "." ++ dg uuid2
  match templates_get dg template st with
  | .error e => (.error e, st)
  | .ok tmpl =>
    if !(tmpl.validate_form form') then (.error .validationFailed, st)
    else
      match write_non_create st.forms digested form' with
      | .error e => (.error e, st)
      | .ok files =>
        (.ok pre, { st with
                    forms := files
                    log := st.log ++ [⟨msgId, DataType.Form tmpl.name, Action.Add, digested⟩] })

/-- `StorageManager::forms_edit` from `src/storage_manager.rs` lines
167-203: overwrite the submitted form's id with the path argument `id`,
stamp timestamp and `deleted = false`, fetch the template, validate, write
a new version file at `forms/<digest(id)>.<digest(fresh uuid)>`, and log an
`Edit` transaction. -/
def forms_edit (dg : String → String) (template : String) (form : Form)
    (id uuid : String) (msgId : Nat) (ts : Int) (st : Storage) :
    Except Err Unit × Storage :=
  let pre := id
  let form' := { form with id := some pre, timestamp := some ts, deleted := some false }
  let digested := dg pre ++ "." ++ dg uuid
  match templates_get dg template st with
  | .error e => (.error e, st)
  | .ok tmpl =>
    if !(tmpl.validate_form form') then (.error .validationFailed, st)
    else
      match write_non_create st.forms digested form' with
      | .error e => (.error e, st)
      | .ok files =>
        (.ok (), { st with
                   forms := files
                   log := st.log ++ [⟨msgId, DataType.Form tmpl.name, Action.Edit, digested⟩] })

/-- Stamping id, timestamp and deleted leaves the field map alone, so the
validator's verdict is unchanged. -/
theorem validate_form_stamp (t : FormTemplate) (f : Form) (i : Option String)
    (ts : Option Int) (d : Option Bool) :
    t.validate_form { f with id := i, timestamp := ts, deleted := d }
      = t.validate_form f := by
  cases f
  rfl

/-- Stamping after a caller-supplied id overwrite equals stamping the
original form: the caller's id is dead on arrival. -/
theorem stamp_overrides_id (f : Form) (c i : Option String) (ts : Option Int)
    (d : Option Bool) :
    ({ { f with id := c } with id := i, timestamp := ts, deleted := d } : Form)
      = { f with id := i, timestamp := ts, deleted := d } := by
  cases f
  rfl

/-- `forms_edit` when the template file is missing: the error propagates
before any write. -/
theorem forms_edit_of_tmpl_missing (dg : String → String) (template : String)
    (form : Form) (id uuid : String) (msgId : Nat) (ts : Int) (st : Storage)
    (e : Err) (hg : templates_get dg template st = .error e) :
    forms_edit dg template form id uuid msgId ts st = (.error e, st) := by
  simp [forms_edit, hg]

/-- `forms_edit` when validation fails: the error returns before any write
or log append. -/
theorem forms_edit_of_invalid (dg : String → String) (template : String)
    (form : Form) (id uuid : String) (msgId : Nat) (ts : Int) (st : Storage)
    (tmpl : FormTemplate) (hg : templates_get dg template st = .ok tmpl)
    (hval : tmpl.validate_form
      { form with id := some id, timestamp := some ts, deleted := some false } = false) :
    forms_edit dg template form id uuid msgId ts st
      = (.error Err.validationFailed, st) := by
  simp [forms_edit, hg, hval]

/-- `forms_edit` on the success path: the stamped form is written at the
digested name and an `Edit` transaction is appended. -/
theorem forms_edit_success (dg : String → String) (template : String)
    (form : Form) (id uuid : String) (msgId : Nat) (ts : Int) (st : Storage)
    (tmpl : FormTemplate) (hg : templates_get dg template st = .ok tmpl)
    (hval : tmpl.validate_form
      { form with id := some id, timestamp := some ts, deleted := some false } = true)
    (hfind : (st.forms.find? (fun p => p.1 == dg id ++ "." ++ dg uuid)).isSome = false) :
    forms_edit dg template form id uuid msgId ts st
      = (.ok (), { st with
          forms := (dg id ++ "." ++ dg uuid,
            { form with id := some id, timestamp := some ts, deleted := some false })
            :: st.forms
          log := st.log ++ [⟨msgId, DataType.Form tmpl.name, Action.Edit,
            dg id ++ "." ++ dg uuid⟩] }) := by
  simp [forms_edit, hg, hval, write_non_create, hfind]

/-- `forms_add` when the template file is missing. -/
theorem forms_add_of_tmpl_missing (dg : String → String) (template : String)
    (form : Form) (pre uuid2 : String) (msgId : Nat) (ts : Int) (st : Storage)
    (e : Err) (hg : templates_get dg template st = .error e) :
    forms_add dg template form pre uuid2 msgId ts st = (.error e, st) := by
  simp [forms_add, hg]

/-- `forms_add` when validation fails. -/
theorem forms_add_of_invalid (dg : String → String) (template : String)
    (form : Form) (pre uuid2 : String) (msgId : Nat) (ts : Int) (st : Storage)
    (tmpl : FormTemplate) (hg : templates_get dg template st = .ok tmpl)
    (hval : tmpl.validate_form
      { form with id := some pre, timestamp := some ts, deleted := some false } = false) :
    forms_add dg template form pre uuid2 msgId ts st
      = (.error Err.validationFailed, st) := by
  simp [forms_add, hg, hval]

/-- `forms_add` when the digested file name is already taken. -/
theorem forms_add_of_taken (dg : String → String) (template : String)
    (form : Form) (pre uuid2 : String) (msgId : Nat) (ts : Int) (st : Storage)
    (tmpl : FormTemplate) (hg : templates_get dg template st = .ok tmpl)
    (hval : tmpl.validate_form
      { form with id := some pre, timestamp := some ts, deleted := some false } = true)
    (hfind : (st.forms.find? (fun p => p.1 == dg pre ++ "." ++ dg uuid2)).isSome = true) :
    forms_add dg template form pre uuid2 msgId ts st
      = (.error Err.alreadyExists, st) := by
  simp [forms_add, hg, hval, write_non_create, hfind]

/-- `forms_add` on the success path: the stamped form is written and an
`Add` transaction appended; the minted uuid is returned. -/
theorem forms_add_success (dg : String → String) (template : String)
    (form : Form) (pre uuid2 : String) (msgId : Nat) (ts : Int) (st : Storage)
    (tmpl : FormTemplate) (hg : templates_get dg template st = .ok tmpl)
    (hval : tmpl.validate_form
      { form with id := some pre, timestamp := some ts, deleted := some false } = true)
    (hfind : (st.forms.find? (fun p => p.1 == dg pre ++ "." ++ dg uuid2)).isSome = false) :
    forms_add dg template form pre uuid2 msgId ts st
      = (.ok pre, { st with
          forms := (dg pre ++ "." ++ dg uuid2,
            { form with id := some pre, timestamp := some ts, deleted := some false })
            :: st.forms
          log := st.log ++ [⟨msgId, DataType.Form tmpl.name, Action.Add,
            dg pre ++ "." ++ dg uuid2⟩] }) := by
  simp [forms_add, hg, hval, write_non_create, hfind]

/-- C6: when the stored template under the requested name is `T` and the
submitted form fails validation against `T`, `forms_edit` returns the
validation error and leaves the storage state — form files and transaction
log — exactly as it was. -/
theorem forms_edit_validation_gate (dg : String → String) (template : String)
    (T : FormTemplate) (form : Form) (id uuid : String) (msgId : Nat) (ts : Int)
    (st : Storage)
    (hT : fileLookup st.templates (dg template ++ ".current") = some T)
    (hv : T.validate_form form = false) :
    (forms_edit dg template form id uuid msgId ts st).1 = .error Err.validationFailed ∧
    (forms_edit dg template form id uuid msgId ts st).2 = st := by
  have hg : templates_get dg template st = .ok T := by
    rw [templates_get, hT]
  have hval : T.validate_form
      { form with id := some id, timestamp := some ts, deleted := some false }
        = false := by
    rw [validate_form_stamp]
    exact hv
  rw [forms_edit_of_invalid dg template form id uuid msgId ts st T hg hval]
  exact ⟨rfl, rfl⟩

/-- A form that does not follow `tEx` (wrong tag under "speed"), used by
the C6 evaluation witness. -/
def fBad : Form :=
  { fEx with fields := [("speed", FieldData.Number 3), ("auto", FieldData.CheckBox true)] }

/-- Digest stand-in used by evaluation witnesses (the real code uses
sha256, which all embedded operations take as the parameter `dg`). -/
def dg0 : String → String := fun s => "h" ++ s

/-- Storage with `tEx` stored as a template file under its `dg0` name. -/
def stT : Storage := { stEmpty with templates := [(dg0 "T1" ++ ".current", tEx)] }

/-- Evaluation witness for C6: the failing edit at concrete inputs. -/
theorem forms_edit_validation_gate_witness :
    (forms_edit dg0 "T1" fBad "i1" "u1" 3 50 stT).1 = .error Err.validationFailed ∧
    (forms_edit dg0 "T1" fBad "i1" "u1" 3 50 stT).2 = stT :=
  forms_edit_validation_gate dg0 "T1" tEx fBad "i1" "u1" 3 50 stT (by decide) (by decide)

/-- C10: a stored form's id never comes from the request body.  The result
of `forms_add` is the same whatever id the caller submitted (first
conjunct); on success `forms_add` returns exactly the freshly minted uuid
`pre` (second conjunct) and the stored form file carries `id = some pre`
(third conjunct); `forms_edit`'s result likewise ignores the submitted id
(fourth conjunct) and on success stores the form with its id overwritten by
the path argument `idArg` (fifth conjunct). -/
theorem forms_ids_come_from_server (dg : String → String) (template : String)
    (form : Form) (callerId : Option String) (pre uuid2 idArg uuid : String)
    (msgId : Nat) (ts : Int) (st : Storage) :
    forms_add dg template { form with id := callerId } pre uuid2 msgId ts st
      = forms_add dg template form pre uuid2 msgId ts st
    ∧ (∀ s, (forms_add dg template form pre uuid2 msgId ts st).1 = .ok s → s = pre)
    ∧ ((forms_add dg template form pre uuid2 msgId ts st).1 = .ok pre →
        fileLookup (forms_add dg template form pre uuid2 msgId ts st).2.forms
          (dg pre ++ "." ++ dg uuid2)
          = some { form with id := some pre, timestamp := some ts, deleted := some false })
    ∧ forms_edit dg template { form with id := callerId } idArg uuid msgId ts st
      = forms_edit dg template form idArg uuid msgId ts st
    ∧ ((forms_edit dg template form idArg uuid msgId ts st).1 = .ok () →
        fileLookup (forms_edit dg template form idArg uuid msgId ts st).2.forms
          (dg idArg ++ "." ++ dg uuid)
          = some { form with
                   id := some idArg
                   timestamp := some ts
                   deleted := some false }) := by
  refine ⟨?_, ?_, ?_, ?_, ?_⟩
  · rw [forms_add, forms_add, stamp_overrides_id]
  · intro s hs
    cases hg : templates_get dg template st with
    | error e =>
      rw [forms_add_of_tmpl_missing dg template form pre uuid2 msgId ts st e hg] at hs
      cases hs
    | ok tmpl =>
      cases hval : tmpl.validate_form
          { form with id := some pre, timestamp := some ts, deleted := some false } with
      | false =>
        rw [forms_add_of_invalid dg template form pre uuid2 msgId ts st tmpl hg hval] at hs
        cases hs
      | true =>
        cases hfind : (st.forms.find? (fun p => p.1 == dg pre ++ "." ++ dg uuid2)).isSome with
        | true =>
          rw [forms_add_of_taken dg template form pre uuid2 msgId ts st tmpl hg hval hfind] at hs
          cases hs
        | false =>
          rw [forms_add_success dg template form pre uuid2 msgId ts st tmpl hg hval hfind] at hs
          exact (Except.ok.inj hs).symm
  · intro hs
    cases hg : templates_get dg template st with
    | error e =>
      rw [forms_add_of_tmpl_missing dg template form pre uuid2 msgId ts st e hg] at hs
      cases hs
    | ok tmpl =>
      cases hval : tmpl.validate_form
          { form with id := some pre, timestamp := some ts, deleted := some false } with
      | false =>
        rw [forms_add_of_invalid dg template form pre uuid2 msgId ts st tmpl hg hval] at hs
        cases hs
      | true =>
        cases hfind : (st.forms.find? (fun p => p.1 == dg pre ++ "." ++ dg uuid2)).isSome with
        | true =>
          rw [forms_add_of_taken dg template form pre uuid2 msgId ts st tmpl hg hval hfind] at hs
          cases hs
        | false =>
          rw [forms_add_success dg template form pre uuid2 msgId ts st tmpl hg hval hfind]
          simp [fileLookup, List.find?]
  · rw [forms_edit, forms_edit, stamp_overrides_id]
  · intro hs
    cases hg : templates_get dg template st with
    | error e =>
      rw [forms_edit_of_tmpl_missing dg template form idArg uuid msgId ts st e hg] at hs
      cases hs
    | ok tmpl =>
      cases hval : tmpl.validate_form
          { form with id := some idArg, timestamp := some ts, deleted := some false } with
      | false =>
        rw [forms_edit_of_invalid dg template form idArg uuid msgId ts st tmpl hg hval] at hs
        cases hs
      | true =>
        cases hfind : (st.forms.find? (fun p => p.1 == dg idArg ++ "." ++ dg uuid)).isSome with
        | true =>
          have := forms_edit_success dg template form idArg uuid msgId ts st tmpl hg hval
          rw [forms_edit] at hs
          rw [hg] at hs
          simp only [hval, Bool.not_true, Bool.false_eq_true, if_false] at hs
          rw [write_non_create] at hs
          rw [hfind] at hs
          simp at hs
        | false =>
          rw [forms_edit_success dg template form idArg uuid msgId ts st tmpl hg hval hfind]
          simp [fileLookup, List.find?]

/-- Evaluation witness for C10: the stored form after a concrete
successful `forms_add` carries the minted id, not the caller's. -/
theorem forms_ids_come_from_server_witness :
    fileLookup (forms_add dg0 "T1" fEx "p1" "v1" 7 100 stT).2.forms
      (dg0 "p1" ++ "." ++ dg0 "v1")
      = some { fEx with id := some "p1", timestamp := some 100, deleted := some false } :=
  (forms_ids_come_from_server dg0 "T1" fEx (some "zzz") "p1" "v1" "i" "u" 7 100
    stT).2.2.1 (by decide)

/-- Modelled from the spec: `forms_get` ends by deserializing the single
row produced by `select max(timestamp)` — a JSON object holding only a
`MAX(forms.timestamp)` column — into a `Form`; spec section 3 makes
`fields`, `scouter`, `team`, `match_number` and `event_key` required
members of a Form payload, none of which that row carries, so the
deserialization fails (the serde definition of the `Form` struct is not
under `src/`). -/
def formOfMaxRow (maxTs : Option Int) : Except Err Form :=
  match maxTs with
  | _ => .error .decode

/-- `StorageManager::forms_get` from `src/storage_manager.rs` lines
236-266: error when the forms directory is empty; otherwise query the
table of all form files filtered by `fields IS NOT NULL AND deleted =
false`, project to `max(timestamp)`, and deserialize the resulting
aggregate row into a `Form`.  Both the `template` and `id` parameters are
unused in the query, exactly as in the source. -/
def forms_get (template : String) (id : String) (st : Storage) : Except Err Form :=
  if st.forms.isEmpty then .error .noForms
  else
    let rows := st.forms.filter (fun p => p.2.deleted == some false)
    let maxTs := (rows.map (fun p => p.2.timestamp)).foldl
      (fun acc t =>
        match acc, t with
        | none, t => t
        | some a, none => some a
        | some a, some b => some (max a b)) none
    formOfMaxRow maxTs

/-- `StorageManager::forms_delete` from `src/storage_manager.rs` lines
205-230: fetch the form via `forms_get`, set `deleted = true` and a fresh
timestamp, write the tombstone as a new file at
`forms/<digest(id)>.<digest(fresh uuid)>`, and log a `Delete`
transaction. -/
def forms_delete (dg : String → String) (template : String) (id : String)
    (uuid : String) (msgId : Nat) (ts : Int) (st : Storage) :
    Except Err Unit × Storage :=
  let dig := dg id ++ "." ++ dg uuid
  match forms_get template id st with
  | .error e => (.error e, st)
  | .ok form =>
    let form' := { form with deleted := some true, timestamp := some ts }
    match write_non_create st.forms dig form' with
    | .error e => (.error e, st)
    | .ok files =>
      (.ok (), { st with
                 forms := files
                 log := st.log ++ [⟨msgId, DataType.Form template, Action.Delete, dig⟩] })

/-- Storage holding the template `tEx` and one live form file, the C7
failing input. -/
def formsSt0 : Storage :=
  { stT with forms := [(dg0 "f1" ++ "." ++ dg0 "b1",
      { fEx with id := some "f1", timestamp := some 10, deleted := some false })] }

/-- C7 failing-input evaluation: with one live form stored, the first
`forms_delete` call already fails (the `forms_get` it relies on ignores the
requested id and cannot decode the `max(timestamp)` aggregate row into a
form), the state is unchanged, and the second consecutive call fails
identically — so neither do two consecutive deletes succeed, nor does a
delete of a tombstoned form return success. -/
theorem forms_delete_never_succeeds_twice :
    (forms_delete dg0 "T1" "f1" "u9" 9 99 formsSt0).1 = .error Err.decode ∧
    (forms_delete dg0 "T1" "f1" "u9" 9 99 formsSt0).2 = formsSt0 ∧
    (forms_delete dg0 "T1" "f1" "u10" 10 100
      (forms_delete dg0 "T1" "f1" "u9" 9 99 formsSt0).2).1 = .error Err.decode ∧
    forms_get "T1" "f1" formsSt0 = .error Err.decode := by
  decide

/-- `StorageManager::schedules_add` from `src/storage_manager.rs` lines
358-377: write `schedules/<digest(event)>.current` (never overwriting) and
log an `Add` transaction. -/
def schedules_add (dg : String → String) (schedule : Schedule) (msgId : Nat)
    (st : Storage) : Except Err Unit × Storage :=
  let digested := dg schedule.event ++ ".current"
  match write_non_create st.schedules digested schedule with
  | .error e => (.error e, st)
  | .ok files =>
    (.ok (), { st with
               schedules := files
               log := st.log ++ [⟨msgId, DataType.Schedule, Action.Add, digested⟩] })

/-- `StorageManager::add_template_form_dir` from `src/storage_manager.rs`
lines 38-42: `fs::create_dir` fails if the directory already exists. -/
def add_template_form_dir (name : String) (st : Storage) : Except Err Storage :=
  if st.formDirs.contains name then .error .alreadyExists
  else .ok { st with formDirs := name :: st.formDirs }

/-- `StorageManager::templates_add` from `src/storage_manager.rs` lines
464-485: write `templates/<digest(name)>.current` (never overwriting),
create the per-template form directory, and log an `Add` transaction. -/
def templates_add (dg : String → String) (template : FormTemplate) (msgId : Nat)
    (st : Storage) : Except Err Unit × Storage :=
  let digested := dg template.name ++ ".current"
  match write_non_create st.templates digested template with
  | .error e => (.error e, st)
  | .ok files =>
    let st1 := { st with templates := files }
    match add_template_form_dir digested st1 with
    | .error e => (.error e, st1)
    | .ok st2 =>
      (.ok (), { st2 with
                 log := st2.log ++ [⟨msgId, DataType.Template, Action.Add, digested⟩] })

/-- The storable kinds of the claim (spec section 9): templates, schedules
and bytes payloads; forms take the dedicated indexed path. -/
inductive Storable where
  | template (t : FormTemplate)
  | schedule (s : Schedule)
  | bytes (name : String) (key data : List Nat)
deriving DecidableEq, Repr

/-- Dispatch of `add` over the three storable kinds, to the corresponding
`StorageManager` operations. -/
def storables_add (dg : String → String) (s : Storable) (msgId : Nat)
    (st : Storage) : Except Err Unit × Storage :=
  match s with
  | .template t => templates_add dg t msgId st
  | .schedule sc => schedules_add dg sc msgId st
  | .bytes n k d => bytes_add n k d msgId st

/-- The `.current` file name under which each storable kind is written. -/
def Storable.currentFile (s : Storable) (dg : String → String) : String :=
  match s with
  | .template t => dg t.name ++ ".current"
  | .schedule sc => dg sc.event ++ ".current"
  | .bytes n _ _ => n ++ ".current"

/-- The code's on-disk liveness witness: the alt-key's `.current` file is
present in its kind's directory (edits rewrite it, deletes rename it
away). -/
def Storable.currentFilePresent (s : Storable) (dg : String → String)
    (st : Storage) : Bool :=
  match s with
  | .template t => (fileLookup st.templates (dg t.name ++ ".current")).isSome
  | .schedule sc => (fileLookup st.schedules (dg sc.event ++ ".current")).isSome
  | .bytes n _ _ => (fileLookup st.bytesFiles (n ++ ".current")).isSome

/-- The serialized payload of the storable sits at its `.current` file. -/
def Storable.stored (s : Storable) (dg : String → String) (st : Storage) : Prop :=
  match s with
  | .template t => fileLookup st.templates (dg t.name ++ ".current") = some t
  | .schedule sc => fileLookup st.schedules (dg sc.event ++ ".current") = some sc
  | .bytes n k d => fileLookup st.bytesFiles (n ++ ".current")
      = some (beBytes8 k.length ++ k ++ d)

/-- The `DataType` tag each storable kind logs. -/
def Storable.logType (s : Storable) : DataType :=
  match s with
  | .template _ => DataType.Template
  | .schedule _ => DataType.Schedule
  | .bytes _ _ _ => DataType.Bytes

/-- Looking a file up succeeds exactly when `find?` does. -/
theorem isSome_fileLookup {α : Type} (files : List (String × α)) (n : String) :
    (fileLookup files n).isSome = (files.find? (fun p => p.1 == n)).isSome := by
  rw [fileLookup]
  cases files.find? (fun p => p.1 == n) <;> rfl

/-- C8: for every storable (template, schedule or bytes payload), `add`
fails with the conflict error when the alt-key's `.current` file — the
code's liveness witness — is already present, leaving the state untouched
(so the existing file is never overwritten); otherwise (for a template,
additionally when its form directory does not yet exist) the call succeeds,
the serialized payload is stored at the alt-key's `.current` file, and an
`Add` transaction for it is appended to the log. -/
theorem storables_add_spec (dg : String → String) (s : Storable) (msgId : Nat)
    (st : Storage) :
    (s.currentFilePresent dg st = true →
      (storables_add dg s msgId st).1 = .error Err.alreadyExists ∧
      (storables_add dg s msgId st).2 = st)
    ∧ (s.currentFilePresent dg st = false →
       (match s with
        | .template _ => st.formDirs.contains (s.currentFile dg) = false
        | _ => True) →
        (storables_add dg s msgId st).1 = .ok () ∧
        s.stored dg (storables_add dg s msgId st).2 ∧
        (storables_add dg s msgId st).2.log
          = st.log ++ [⟨msgId, s.logType, Action.Add, s.currentFile dg⟩]) := by
  cases s with
  | template t =>
    constructor
    · intro hp
      have hfind : (st.templates.find?
          (fun p => p.1 == dg t.name ++ ".current")).isSome = true := by
        rw [← isSome_fileLookup]
        exact hp
      constructor <;>
        simp [storables_add, templates_add, write_non_create, hfind]
    · intro hp hdir
      have hfind : (st.templates.find?
          (fun p => p.1 == dg t.name ++ ".current")).isSome = false := by
        rw [← isSome_fileLookup]
        exact hp
      have hdir' : st.formDirs.contains (dg t.name ++ ".current") = false := hdir
      have hdirmem : ¬ (dg t.name ++ ".current") ∈ st.formDirs := by
        simpa using hdir'
      have hshape : storables_add dg (Storable.template t) msgId st
          = (.ok (), { st with
              templates := (dg t.name ++ ".current", t) :: st.templates
              formDirs := (dg t.name ++ ".current") :: st.formDirs
              log := st.log ++ [⟨msgId, DataType.Template, Action.Add,
                dg t.name ++ ".current"⟩] }) := by
        simp [storables_add, templates_add, write_non_create, hfind,
          add_template_form_dir, hdirmem]
      rw [hshape]
      refine ⟨rfl, ?_, rfl⟩
      show fileLookup ((dg t.name ++ ".current", t) :: st.templates)
        (dg t.name ++ ".current") = some t
      rw [fileLookup, List.find?]
      simp
  | schedule sc =>
    constructor
    · intro hp
      have hfind : (st.schedules.find?
          (fun p => p.1 == dg sc.event ++ ".current")).isSome = true := by
        rw [← isSome_fileLookup]
        exact hp
      constructor <;>
        simp [storables_add, schedules_add, write_non_create, hfind]
    · intro hp hdir
      have hfind : (st.schedules.find?
          (fun p => p.1 == dg sc.event ++ ".current")).isSome = false := by
        rw [← isSome_fileLookup]
        exact hp
      have hshape : storables_add dg (Storable.schedule sc) msgId st
          = (.ok (), { st with
              schedules := (dg sc.event ++ ".current", sc) :: st.schedules
              log := st.log ++ [⟨msgId, DataType.Schedule, Action.Add,
                dg sc.event ++ ".current"⟩] }) := by
        simp [storables_add, schedules_add, write_non_create, hfind]
      rw [hshape]
      refine ⟨rfl, ?_, rfl⟩
      show fileLookup ((dg sc.event ++ ".current", sc) :: st.schedules)
        (dg sc.event ++ ".current") = some sc
      rw [fileLookup, List.find?]
      simp
  | bytes n k d =>
    constructor
    · intro hp
      have hfind : (st.bytesFiles.find?
          (fun p => p.1 == n ++ ".current")).isSome = true := by
        rw [← isSome_fileLookup]
        exact hp
      constructor <;>
        simp [storables_add, bytes_add, write_non_create, hfind]
    · intro hp hdir
      have hfind : (st.bytesFiles.find?
          (fun p => p.1 == n ++ ".current")).isSome = false := by
        rw [← isSome_fileLookup]
        exact hp
      have hshape : storables_add dg (Storable.bytes n k d) msgId st
          = (.ok (), { st with
              bytesFiles := (n ++ ".current", beBytes8 k.length ++ k ++ d)
                :: st.bytesFiles
              log := st.log ++ [⟨msgId, DataType.Bytes, Action.Add,
                n ++ ".current"⟩] }) := by
        simp [storables_add, bytes_add, write_non_create, hfind]
      rw [hshape]
      refine ⟨rfl, ?_, rfl⟩
      show fileLookup ((n ++ ".current", beBytes8 k.length ++ k ++ d)
          :: st.bytesFiles) (n ++ ".current")
        = some (beBytes8 k.length ++ k ++ d)
      rw [fileLookup, List.find?]
      simp

/-- Evaluation witness for C8: adding the template `tEx` to the empty
storage succeeds, and adding it again to the resulting state conflicts. -/
theorem storables_add_spec_witness :
    (storables_add dg0 (Storable.template tEx) 3 stEmpty).1 = .ok () ∧
    (storables_add dg0 (Storable.template tEx) 4
      (storables_add dg0 (Storable.template tEx) 3 stEmpty).2).1
      = .error Err.alreadyExists :=
  ⟨((storables_add_spec dg0 (Storable.template tEx) 3 stEmpty).2 (by decide)
      (show stEmpty.formDirs.contains ((Storable.template tEx).currentFile dg0) = false
        by decide)).1,
   ((storables_add_spec dg0 (Storable.template tEx) 4
      (storables_add dg0 (Storable.template tEx) 3 stEmpty).2).1 (by decide)).1⟩

/-- The row predicate of `forms_filter`: template column equal, deleted
column false, and every predicate present in the filter satisfied. -/
def formRowMatches (template : String) (filter : Filter) (f : Form) : Bool :=
  (f.template == template) && (f.deleted == some false)
  && (match filter.event with | none => true | some e => f.event_key == e)
  && (match filter.scouter with | none => true | some s => f.scouter == s)
  && (match filter.match_number with | none => true | some m => f.match_number == m)
  && (match filter.team with | none => true | some t => f.team == t)

/-- `StorageManager::forms_filter` from `src/storage_manager.rs` lines
310-356: return the empty list when the forms directory is missing or
empty; otherwise return every form file row whose `template` column equals
the path argument, whose `deleted` column is false, and which satisfies
each predicate present in the filter (the `fields IS NOT NULL` clause holds
of every row in the embedding, since every written form file carries a
`fields` member). -/
def forms_filter (template : String) (filter : Filter) (st : Storage) : List Form :=
  if st.forms.isEmpty then []
  else (st.forms.filter (fun p => formRowMatches template filter p.2)).map
    (fun p => p.2)

/-- C9: every stored form row with the requested template and
`deleted = false` — in particular the current version of every live form —
that satisfies the filter's non-null predicates appears in the result of
`forms_filter`; with the empty filter the predicate hypotheses hold
vacuously, so every such row appears. -/
theorem forms_filter_complete (template : String) (filter : Filter) (st : Storage)
    (name : String) (f : Form) (hmem : (name, f) ∈ st.forms)
    (htmpl : f.template = template) (hlive : f.deleted = some false)
    (hev : ∀ e, filter.event = some e → f.event_key = e)
    (hsc : ∀ s, filter.scouter = some s → f.scouter = s)
    (hmn : ∀ m, filter.match_number = some m → f.match_number = m)
    (htm : ∀ t, filter.team = some t → f.team = t) :
    f ∈ forms_filter template filter st := by
  have hne : st.forms.isEmpty = false := by
    cases h : st.forms with
    | nil => rw [h] at hmem; cases hmem
    | cons a l => rfl
  have hrow : formRowMatches template filter f = true := by
    have h1 : (f.template == template) = true := beq_iff_eq.mpr htmpl
    have h2 : (f.deleted == some false) = true := beq_iff_eq.mpr hlive
    have h3 : (match filter.event with
        | none => true
        | some e => f.event_key == e) = true := by
      cases hq : filter.event with
      | none => rfl
      | some e => exact beq_iff_eq.mpr (hev e hq)
    have h4 : (match filter.scouter with
        | none => true
        | some s => f.scouter == s) = true := by
      cases hq : filter.scouter with
      | none => rfl
      | some s => exact beq_iff_eq.mpr (hsc s hq)
    have h5 : (match filter.match_number with
        | none => true
        | some m => f.match_number == m) = true := by
      cases hq : filter.match_number with
      | none => rfl
      | some m => exact beq_iff_eq.mpr (hmn m hq)
    have h6 : (match filter.team with
        | none => true
        | some t => f.team == t) = true := by
      cases hq : filter.team with
      | none => rfl
      | some t => exact beq_iff_eq.mpr (htm t hq)
    rw [formRowMatches, h1, h2, h3, h4, h5, h6]
    rfl
  rw [forms_filter, hne]
  simp only [Bool.false_eq_true, if_false]
  exact List.mem_map.mpr ⟨(name, f), List.mem_filter.mpr ⟨hmem, hrow⟩, rfl⟩

/-- A live stored form of template "T1", used by the C9 witness. -/
def fLive : Form :=
  { fEx with id := some "f1", timestamp := some 5, deleted := some false }

/-- Storage holding `fLive` as the single current form file. -/
def stLive : Storage :=
  { stT with forms := [(dg0 "f1" ++ "." ++ dg0 "b1", fLive)] }

/-- Evaluation witness for C9: `fLive` satisfies the filter that pins its
team and appears in the filtered result. -/
theorem forms_filter_complete_witness :
    fLive ∈ forms_filter "T1" ⟨none, some 10, none, none⟩ stLive :=
  forms_filter_complete "T1" ⟨none, some 10, none, none⟩ stLive
    (dg0 "f1" ++ "." ++ dg0 "b1") fLive (by decide) (by decide) (by decide)
    (by intro e he; cases he) (by intro s hs; cases hs)
    (by intro m hm; cases hm) (by intro t ht; cases ht; decide)

end Scouting
